import Mathlib

/-!
Shallow embedding of the Gapminder dashboard in `src/Lab10/lab10.py`.

The dashboard is a single linear data-transformation pipeline: it loads a
tabular dataset (`load_data`, memoised by a process-wide cache), offers a
year selector and a continent multi-selector, filters the dataset by the
selection, aggregates per continent, reshapes the aggregate table into a
long form, and hands the results to three chart constructors.

A pandas DataFrame of Gapminder observations is embedded as a `List Row`;
every pandas operation used by the script is non-mutating, so each step is
a pure function producing a new list.  Numeric columns are embedded as `ℚ`
(exact arithmetic for the sums and means that the script computes).
-/

/-- One observation of the dataset: one row of `gapminder_full.csv` with the
columns used by the dashboard. -/
structure Row where
  country : String
  continent : String
  year : Int
  population : ℚ
  gdp_cap : ℚ
  life_exp : ℚ
deriving DecidableEq, Repr

/-- A pandas DataFrame of observations, embedded as its list of rows. -/
abbrev DataFrame := List Row

/-- Python `sorted(xs)` on a list with decidable linear order. -/
def pySorted {α : Type} [LinearOrder α] (l : List α) : List α :=
  List.insertionSort (fun a b => a ≤ b) l

/-- `sorted(df["year"].unique())` (line 29).  `unique()` keeps the first
occurrence of each value; after `sorted` only the underlying set matters, so
duplicate removal is embedded with `List.dedup`. -/
def yearsOptions (df : DataFrame) : List Int :=
  pySorted ((df.map (fun r => r.year)).dedup)

/-- `sorted(df["continent"].unique())` (line 30). -/
def continentsOptions (df : DataFrame) : List String :=
  pySorted ((df.map (fun r => r.continent)).dedup)

/-- Index of the default entry of the year selectbox (line 34):
`years.index(2007) if 2007 in years else len(years) - 1`. -/
def defaultYearIndex (df : DataFrame) : Nat :=
  if (2007 : Int) ∈ yearsOptions df then (yearsOptions df).indexOf 2007
  else (yearsOptions df).length - 1

/-- The year initially selected by the selectbox: the option at
`defaultYearIndex` (line 34).  `none` only when the dataset is empty. -/
def defaultYear (df : DataFrame) : Option Int :=
  (yearsOptions df)[defaultYearIndex df]?

/-- The default of the continent multiselect: all options (line 37,
`default=continents`). -/
def defaultContinents (df : DataFrame) : List String :=
  continentsOptions df

/-- Lines 40–43: `df[df["continent"].isin(selected_continents)].copy()` when
the selection is non-empty (Python truthiness of a list), else `df.copy()`.
`.copy()` is the identity on the value. -/
def filtered_df (df : DataFrame) (selected_continents : List String) : DataFrame :=
  if selected_continents.isEmpty then df
  else df.filter (fun r => selected_continents.contains r.continent)

/-- Line 45: `filtered_df[filtered_df["year"] == selected_year]`. -/
def year_df (df : DataFrame) (selected_year : Int) (selected_continents : List String) :
    DataFrame :=
  (filtered_df df selected_continents).filter (fun r => r.year == selected_year)

/-- One row of the aggregate table `bar_metrics` (lines 51–59). -/
structure AggRow where
  continent : String
  total_population : ℚ
  avg_gdp_per_capita : ℚ
  avg_life_expectancy : ℚ
deriving DecidableEq, Repr

/-- The group keys of `groupby("continent")`: pandas sorts the distinct keys
ascending (the default `sort=True`). -/
def groupKeys (rows : DataFrame) : List String :=
  pySorted ((rows.map (fun r => r.continent)).dedup)

/-- `sum` aggregation of a numeric column over a group. -/
def aggSum (f : Row → ℚ) (rows : DataFrame) : ℚ :=
  (rows.map f).sum

/-- `mean` aggregation of a numeric column over a group. -/
def aggMean (f : Row → ℚ) (rows : DataFrame) : ℚ :=
  (rows.map f).sum / (rows.length : ℚ)

/-- Lines 51–59: `year_df.groupby("continent").agg(total_population=("population","sum"),
avg_gdp_per_capita=("gdp_cap","mean"), avg_life_expectancy=("life_exp","mean")).reset_index()`.
One aggregate row per (sorted) group key, each statistic over that key's rows. -/
def bar_metrics (rows : DataFrame) : List AggRow :=
  (groupKeys rows).map (fun c =>
    let g := rows.filter (fun r => r.continent == c)
    { continent := c
      total_population := aggSum (fun r => r.population) g
      avg_gdp_per_capita := aggMean (fun r => r.gdp_cap) g
      avg_life_expectancy := aggMean (fun r => r.life_exp) g })

/-- Lines 60–64: the fixed `metric_order` list. -/
def metric_order : List String :=
  ["avg_gdp_per_capita", "total_population", "avg_life_expectancy"]

/-- One row of the melted (long-form) table: columns `continent`, `Metric`,
`Value`. -/
structure MeltRow where
  continent : String
  Metric : String
  Value : ℚ
deriving DecidableEq, Repr

/-- `bar_metrics.melt(id_vars="continent", var_name="Metric", value_name="Value")`
(line 66): pandas stacks the value columns in the frame's column order,
which after `.agg`/`.reset_index` is `total_population`, `avg_gdp_per_capita`,
`avg_life_expectancy`. -/
def melt (t : List AggRow) : List MeltRow :=
  (t.map (fun a => MeltRow.mk a.continent "total_population" a.total_population))
    ++ (t.map (fun a => MeltRow.mk a.continent "avg_gdp_per_capita" a.avg_gdp_per_capita))
    ++ (t.map (fun a => MeltRow.mk a.continent "avg_life_expectancy" a.avg_life_expectancy))

/-- Sort key of `sort_values(["continent", "Metric"])` (line 68) after the
`Metric` column is made categorical with categories `metric_order` (line 67):
lexicographic on (continent, position of the metric in `metric_order`). -/
def meltKey (m : MeltRow) : Lex (String × Nat) :=
  toLex (m.continent, metric_order.indexOf m.Metric)

/-- The ordering used by `sort_values(["continent", "Metric"])`. -/
def meltLE (a b : MeltRow) : Prop :=
  meltKey a ≤ meltKey b

instance : DecidableRel meltLE := fun a b =>
  inferInstanceAs (Decidable (meltKey a ≤ meltKey b))

instance : IsTotal MeltRow meltLE :=
  ⟨fun a b => le_total (meltKey a) (meltKey b)⟩

instance : IsTrans MeltRow meltLE :=
  ⟨fun _ _ _ h1 h2 => le_trans h1 h2⟩

/-- Lines 65–69: melt, attach the categorical order, and
`sort_values(["continent", "Metric"])`. -/
def melted_bar (t : List AggRow) : List MeltRow :=
  List.insertionSort meltLE (melt t)

/-- Input of the grouped bar chart (lines 70–91): the melted data plus the
explicit x-axis category array `ordered_continents = bar_metrics["continent"].tolist()`. -/
structure BarChart where
  data : List MeltRow
  x : String
  y : String
  color : String
  categoryArray : List String
deriving DecidableEq, Repr

/-- Input of the Altair scatter chart (lines 94–106). -/
structure ScatterChart where
  data : DataFrame
  xField : String
  yField : String
  colorField : String
  logX : Bool
  tooltip : List String
deriving DecidableEq, Repr

/-- Input of the population trend line chart (lines 108–117). -/
structure LineChart where
  data : DataFrame
  x : String
  y : String
  color : String
deriving DecidableEq, Repr

/-- Everything one interaction cycle of `main` produces after the widgets:
the empty-result warning, the aggregate table, and the three chart inputs
(`none` = the chart is not rendered in this cycle). -/
structure Output where
  warning : Bool
  aggregates : List AggRow
  barChart : Option BarChart
  scatterChart : Option ScatterChart
  lineChart : Option LineChart
deriving DecidableEq, Repr

/-- Lines 40–117 of `main`, from the selection to the rendered charts.
If `year_df` is empty the function warns and returns early (lines 46–48):
no aggregates, no charts.  Otherwise it aggregates, melts, and builds the
three chart inputs; the line chart receives `filtered_df` (all years). -/
def run_pipeline (df : DataFrame) (selected_year : Int)
    (selected_continents : List String) : Output :=
  let filtered := filtered_df df selected_continents
  let yr := filtered.filter (fun r => r.year == selected_year)
  if yr.isEmpty then
    { warning := true
      aggregates := []
      barChart := none
      scatterChart := none
      lineChart := none }
  else
    let bm := bar_metrics yr
    { warning := false
      aggregates := bm
      barChart := some
        { data := melted_bar bm
          x := "continent"
          y := "Value"
          color := "Metric"
          categoryArray := bm.map (fun a => a.continent) }
      scatterChart := some
        { data := yr
          xField := "gdp_cap"
          yField := "life_exp"
          colorField := "continent"
          logX := true
          tooltip := ["country", "continent", "life_exp", "gdp_cap", "population"] }
      lineChart := some
        { data := filtered
          x := "year"
          y := "population"
          color := "continent" } }

/-- The process-wide state of `st.cache_data` on `load_data` (lines 14–16):
at most one cached copy of the loaded dataframe per process lifetime. -/
structure ProcState where
  cache : Option DataFrame
deriving DecidableEq, Repr

/-- `load_data(DATA_PATH)` under `@st.cache_data`: read the file on a cache
miss and memoise; on a hit, reuse the in-memory copy.  `file` is the parsed
content of the static csv. -/
def load_data (file : DataFrame) (s : ProcState) : DataFrame × ProcState :=
  match s.cache with
  | some df => (df, s)
  | none => (file, { cache := some file })

/-- One full interaction cycle of the app: load (through the cache) and run
the pipeline on the current selection. -/
def runCycle (file : DataFrame) (selected_year : Int)
    (selected_continents : List String) (s : ProcState) : Output × ProcState :=
  let (df, s2) := load_data file s
  (run_pipeline df selected_year selected_continents, s2)

/-- The predicate of the spec sentence behind C1, word for word: a row
matches when `year == Y and continent in C and continent == c`. -/
def specMatchLiteral (Y : Int) (C : List String) (c : String) (r : Row) : Bool :=
  r.year == Y && C.contains r.continent && r.continent == c

/-- The rows the pipeline actually aggregates for continent `c`: the year
matches and the continent filter (empty selection = no filtering) holds. -/
def selMatch (Y : Int) (C : List String) (c : String) (r : Row) : Bool :=
  r.year == Y && (C.isEmpty || C.contains r.continent) && r.continent == c

-- A small concrete dataset for witnesses and counterexamples.

/-- A two-continent, two-year sample dataset used by concrete witnesses. -/
def sampleDf : DataFrame :=
  [ ⟨"Japan", "Asia", 2007, 127, 30, 82⟩,
    ⟨"China", "Asia", 2007, 1300, 5, 73⟩,
    ⟨"France", "Europe", 2007, 61, 33, 80⟩,
    ⟨"Japan", "Asia", 1952, 86, 3, 63⟩ ]

/-- A one-row dataset: the smallest input on which the code's
empty-selection behaviour differs from the literal formula of the spec
sentence behind C1. -/
def cexDf : DataFrame :=
  [⟨"Japan", "Asia", 2007, 127, 30, 82⟩]

/-- The long form as the spec describes it: one row per (continent,
metric-name, value) triple, three rows per continent, in the fixed metric
order.  Stated from the spec's words, to be compared with the source's
`melted_bar`. -/
def longFormSpec (t : List AggRow) : List MeltRow :=
  t.flatMap (fun a =>
    [ MeltRow.mk a.continent "avg_gdp_per_capita" a.avg_gdp_per_capita,
      MeltRow.mk a.continent "total_population" a.total_population,
      MeltRow.mk a.continent "avg_life_expectancy" a.avg_life_expectancy ])

/-- Membership is invariant under the Python `sorted`. -/
theorem mem_pySorted {α : Type} [LinearOrder α] {a : α} {l : List α} :
    a ∈ pySorted l ↔ a ∈ l :=
  (List.perm_insertionSort _ l).mem_iff

/-- An empty continent selection leaves the dataset unfiltered (lines 42–43). -/
theorem filtered_df_nil (df : DataFrame) : filtered_df df [] = df := rfl

/-- Selecting every continent present in the dataset also leaves it
unfiltered: the `isin` mask is true on every row. -/
theorem filtered_df_all (df : DataFrame) :
    filtered_df df (continentsOptions df) = df := by
  by_cases h : (continentsOptions df).isEmpty
  · simp [filtered_df, h]
  · simp only [filtered_df, h, if_neg, Bool.false_eq_true, not_false_iff, if_false]
    refine List.filter_eq_self.mpr (fun r hr => ?_)
    have : r.continent ∈ continentsOptions df := by
      exact mem_pySorted.mpr (List.mem_dedup.mpr (List.mem_map_of_mem _ hr))
    simpa using this

/-- Claim C2: for every dataset and year, the pipeline run with an empty
continent selection produces exactly the same filtered rows, aggregates and
chart inputs as the run with all continents present in the dataset. -/
theorem claim_C2_empty_selection_is_all (df : DataFrame) (Y : Int) :
    run_pipeline df Y [] = run_pipeline df Y (continentsOptions df) ∧
      filtered_df df [] = filtered_df df (continentsOptions df) := by
  constructor
  · simp only [run_pipeline, filtered_df_nil, filtered_df_all]
  · rw [filtered_df_nil, filtered_df_all]

/-- Claim C3: if no row survives the year and continent filters, the pipeline
warns, computes no aggregate rows, and renders none of the three charts. -/
theorem claim_C3_empty_result (df : DataFrame) (Y : Int) (C : List String)
    (h : year_df df Y C = []) :
    run_pipeline df Y C =
      { warning := true, aggregates := [], barChart := none,
        scatterChart := none, lineChart := none } := by
  unfold year_df at h
  simp only [run_pipeline, h, List.isEmpty_nil, if_true]

/-- Witness for C3: `sampleDf` has no observation for year 1999, so that
interaction cycle only warns. -/
theorem claim_C3_empty_result_witness :
    year_df sampleDf 1999 ["Europe", "Asia"] = [] ∧
      run_pipeline sampleDf 1999 ["Europe", "Asia"] =
        { warning := true, aggregates := [], barChart := none,
          scatterChart := none, lineChart := none } :=
  ⟨by decide, claim_C3_empty_result sampleDf 1999 ["Europe", "Asia"] (by decide)⟩

/-- Claim C8: an interaction cycle is deterministic and mutates no hidden
state other than filling the load cache: re-running the cycle with the same
inputs from the state the first run left behind yields the same output and
the same state. -/
theorem claim_C8_deterministic (file : DataFrame) (Y : Int) (C : List String)
    (s : ProcState) :
    (runCycle file Y C ((runCycle file Y C s).2)).1 = (runCycle file Y C s).1 ∧
      (runCycle file Y C ((runCycle file Y C s).2)).2 = (runCycle file Y C s).2 := by
  obtain ⟨c⟩ := s
  cases c <;> simp [runCycle, load_data]

/-- Claim C9: a cycle never changes the cached raw dataframe: from any state
that already holds the loaded dataset, the state after the cycle is the same
state, rows and columns untouched. -/
theorem claim_C9_dataset_unchanged (file : DataFrame) (Y : Int) (C : List String)
    (s : ProcState) (df : DataFrame) (h : s.cache = some df) :
    (runCycle file Y C s).2 = s ∧ (runCycle file Y C s).2.cache = some df := by
  obtain ⟨c⟩ := s
  cases h
  exact ⟨rfl, rfl⟩

/-- Witness for C9: running a cycle on a state caching `sampleDf` keeps the
cache exactly `sampleDf`. -/
theorem claim_C9_dataset_unchanged_witness :
    (ProcState.mk (some sampleDf)).cache = some sampleDf ∧
      ((runCycle sampleDf 2007 [] (ProcState.mk (some sampleDf))).2 =
          ProcState.mk (some sampleDf) ∧
        (runCycle sampleDf 2007 [] (ProcState.mk (some sampleDf))).2.cache =
          some sampleDf) :=
  ⟨rfl, claim_C9_dataset_unchanged sampleDf 2007 [] _ sampleDf rfl⟩

/-- Claim C6: when anything is rendered at all, the line chart receives the
continent-filtered frame `filtered_df` — not year-filtered and not modified
by the aggregation steps: every row of the dataset passing the continent
filter is in it, and it contains only rows of the dataset. -/
theorem claim_C6_line_chart_full_history (df : DataFrame) (Y : Int)
    (C : List String) (h : year_df df Y C ≠ []) :
    (run_pipeline df Y C).lineChart =
        some { data := filtered_df df C, x := "year", y := "population",
               color := "continent" } ∧
      (∀ r ∈ df, (C.isEmpty || C.contains r.continent) = true →
        r ∈ filtered_df df C) ∧
      (∀ r ∈ filtered_df df C, r ∈ df) := by
  refine ⟨?_, ?_, ?_⟩
  · unfold year_df at h
    have hb : ((filtered_df df C).filter (fun r => r.year == Y)).isEmpty = false := by
      rw [List.isEmpty_eq_false]; exact h
    simp only [run_pipeline, hb, Bool.false_eq_true, if_false]
  · intro r hr hc
    unfold filtered_df
    by_cases hC : C.isEmpty
    · simp [hC, hr]
    · simp only [hC, Bool.false_or] at hc
      simp only [hC, Bool.false_eq_true, if_false]
      exact List.mem_filter.mpr ⟨hr, hc⟩
  · intro r hr
    unfold filtered_df at hr
    by_cases hC : C.isEmpty
    · simpa [hC] using hr
    · simp only [hC, Bool.false_eq_true, if_false] at hr
      exact (List.mem_filter.mp hr).1

/-- Witness for C6 at `sampleDf`, year 2007, continents `["Asia"]`. -/
theorem claim_C6_line_chart_full_history_witness :
    year_df sampleDf 2007 ["Asia"] ≠ [] ∧
      ((run_pipeline sampleDf 2007 ["Asia"]).lineChart =
          some { data := filtered_df sampleDf ["Asia"], x := "year",
                 y := "population", color := "continent" } ∧
        (∀ r ∈ sampleDf, (List.isEmpty ["Asia"] || List.contains ["Asia"] r.continent) = true →
          r ∈ filtered_df sampleDf ["Asia"]) ∧
        (∀ r ∈ filtered_df sampleDf ["Asia"], r ∈ sampleDf)) :=
  ⟨by decide, claim_C6_line_chart_full_history sampleDf 2007 ["Asia"] (by decide)⟩

/-- The year options are sorted ascending. -/
theorem yearsOptions_sorted (df : DataFrame) :
    (yearsOptions df).Sorted (fun a b => a ≤ b) :=
  List.sorted_insertionSort _ _

/-- A nonempty dataset yields a nonempty year-option list. -/
theorem yearsOptions_ne_nil {df : DataFrame} (h : df ≠ []) :
    yearsOptions df ≠ [] := by
  obtain ⟨r, hr⟩ := List.exists_mem_of_ne_nil df h
  have : r.year ∈ yearsOptions df :=
    mem_pySorted.mpr (List.mem_dedup.mpr (List.mem_map_of_mem _ hr))
  exact List.ne_nil_of_mem this

/-- Claim C7: the year selector offers exactly the distinct years present and
defaults to 2007 when present, else to the maximum year; the continent
multi-selector offers the distinct continents and defaults to all of them. -/
theorem claim_C7_widget_defaults (df : DataFrame) (h : df ≠ []) :
    ((2007 : Int) ∈ yearsOptions df → defaultYear df = some 2007) ∧
      ((2007 : Int) ∉ yearsOptions df →
        ∃ m, defaultYear df = some m ∧ m ∈ yearsOptions df ∧
          ∀ y ∈ yearsOptions df, y ≤ m) ∧
      (∀ y, y ∈ yearsOptions df ↔ y ∈ df.map (fun r => r.year)) ∧
      (yearsOptions df).Nodup ∧
      defaultContinents df = continentsOptions df ∧
      (∀ c, c ∈ continentsOptions df ↔ c ∈ df.map (fun r => r.continent)) ∧
      (continentsOptions df).Nodup := by
  refine ⟨?_, ?_, ?_, ?_, rfl, ?_, ?_⟩
  · intro hmem
    have hlt : List.indexOf 2007 (yearsOptions df) < (yearsOptions df).length :=
      List.indexOf_lt_length.mpr hmem
    unfold defaultYear defaultYearIndex
    rw [if_pos hmem, List.getElem?_eq_getElem hlt, List.getElem_indexOf hlt]
  · intro hmem
    have hne := yearsOptions_ne_nil h
    have hpos : 0 < (yearsOptions df).length := List.length_pos.mpr hne
    have hlt : (yearsOptions df).length - 1 < (yearsOptions df).length :=
      Nat.sub_lt hpos Nat.one_pos
    refine ⟨(yearsOptions df)[(yearsOptions df).length - 1], ?_, ?_, ?_⟩
    · unfold defaultYear defaultYearIndex
      rw [if_neg hmem, List.getElem?_eq_getElem hlt]
    · exact List.getElem_mem hlt
    · intro y hy
      obtain ⟨i, hi, rfl⟩ := List.mem_iff_getElem.mp hy
      rcases eq_or_lt_of_le (Nat.le_sub_one_of_lt hi) with heq | hlt2
      · subst heq
        exact le_rfl
      · have := (yearsOptions_sorted df).rel_get_of_lt
          (a := ⟨i, hi⟩) (b := ⟨(yearsOptions df).length - 1, hlt⟩) hlt2
        simpa using this
  · intro y
    rw [yearsOptions, mem_pySorted, List.mem_dedup]
  · exact (List.perm_insertionSort _ _).nodup_iff.mpr (List.nodup_dedup _)
  · intro c
    rw [continentsOptions, mem_pySorted, List.mem_dedup]
  · exact (List.perm_insertionSort _ _).nodup_iff.mpr (List.nodup_dedup _)

/-- Witness for C7: `sampleDf` is nonempty and contains year 2007. -/
theorem claim_C7_widget_defaults_witness :
    sampleDf ≠ [] ∧
      (((2007 : Int) ∈ yearsOptions sampleDf → defaultYear sampleDf = some 2007) ∧
        ((2007 : Int) ∉ yearsOptions sampleDf →
          ∃ m, defaultYear sampleDf = some m ∧ m ∈ yearsOptions sampleDf ∧
            ∀ y ∈ yearsOptions sampleDf, y ≤ m) ∧
        (∀ y, y ∈ yearsOptions sampleDf ↔ y ∈ sampleDf.map (fun r => r.year)) ∧
        (yearsOptions sampleDf).Nodup ∧
        defaultContinents sampleDf = continentsOptions sampleDf ∧
        (∀ c, c ∈ continentsOptions sampleDf ↔
          c ∈ sampleDf.map (fun r => r.continent)) ∧
        (continentsOptions sampleDf).Nodup) :=
  ⟨by decide, claim_C7_widget_defaults sampleDf (by decide)⟩

/-- Grouping the year-filtered frame by continent `c` selects exactly the
rows of the dataset matching the effective selection for `c`. -/
theorem year_df_filter_continent (df : DataFrame) (Y : Int) (C : List String)
    (c : String) :
    (year_df df Y C).filter (fun r => r.continent == c) =
      df.filter (selMatch Y C c) := by
  unfold year_df filtered_df selMatch
  by_cases hC : C.isEmpty
  · simp only [hC, if_true, Bool.true_or]
    rw [List.filter_filter]
    refine List.filter_congr (fun r _ => ?_)
    generalize (r.continent == c) = b1
    generalize (r.year == Y) = b2
    cases b1 <;> cases b2 <;> rfl
  · have hC2 : C.isEmpty = false := by simpa using hC
    simp only [hC2, Bool.false_eq_true, if_false, Bool.false_or]
    rw [List.filter_filter, List.filter_filter]
    refine List.filter_congr (fun r _ => ?_)
    generalize (r.continent == c) = b1
    generalize (r.year == Y) = b2
    generalize (C.contains r.continent) = b3
    cases b1 <;> cases b2 <;> cases b3 <;> rfl

/-- Membership in the year-filtered frame, phrased on the raw dataset. -/
theorem mem_year_df {df : DataFrame} {Y : Int} {C : List String} {r : Row} :
    r ∈ year_df df Y C ↔
      r ∈ df ∧ (r.year == Y && (C.isEmpty || C.contains r.continent)) = true := by
  unfold year_df filtered_df
  by_cases hC : C.isEmpty
  · simp [hC, List.mem_filter]
  · simp only [hC, Bool.false_eq_true, if_false, List.mem_filter,
      Bool.false_or, Bool.and_eq_true]
    tauto

/-- Claim C1 counterexample: with the empty continent selection, the pipeline
aggregates over the whole dataset, while the claim's formula (`continent in C`
with `C = []`) selects no rows at all, so the claimed equation fails. -/
theorem claim_C1_counterexample :
    ¬ (∀ a ∈ bar_metrics (year_df cexDf 2007 []),
        a.total_population =
          aggSum (fun r => r.population)
            (cexDf.filter (specMatchLiteral 2007 [] a.continent)) ∧
          a.avg_gdp_per_capita =
            aggMean (fun r => r.gdp_cap)
              (cexDf.filter (specMatchLiteral 2007 [] a.continent)) ∧
          a.avg_life_expectancy =
            aggMean (fun r => r.life_exp)
              (cexDf.filter (specMatchLiteral 2007 [] a.continent))) := by
  intro h
  have hmem : (AggRow.mk "Asia" 127 30 82) ∈ bar_metrics (year_df cexDf 2007 []) := by
    simp +decide only [bar_metrics, groupKeys, pySorted, List.insertionSort,
      List.orderedInsert, year_df, filtered_df, cexDf, aggSum, aggMean,
      List.dedup, List.filter, List.map, List.mem_singleton]
    norm_num
  have h1 := (h _ hmem).1
  simp +decide only [cexDf, specMatchLiteral, aggSum, List.filter, List.map,
    List.sum_nil] at h1

/-- Claim C1 (amended): every aggregate row's statistics are the sum of
`population` and the means of `gdp_cap` and `life_exp` over exactly the rows
with the selected year, the row's continent, and — unless the selection is
empty, which disables continent filtering — a selected continent. -/
theorem claim_C1_aggregate_formulas (df : DataFrame) (Y : Int) (C : List String)
    (a : AggRow) (ha : a ∈ bar_metrics (year_df df Y C)) :
    a.total_population =
        aggSum (fun r => r.population) (df.filter (selMatch Y C a.continent)) ∧
      a.avg_gdp_per_capita =
        aggMean (fun r => r.gdp_cap) (df.filter (selMatch Y C a.continent)) ∧
      a.avg_life_expectancy =
        aggMean (fun r => r.life_exp) (df.filter (selMatch Y C a.continent)) := by
  obtain ⟨c, _, rfl⟩ := List.mem_map.mp ha
  dsimp only
  rw [year_df_filter_continent]
  exact ⟨rfl, rfl, rfl⟩

/-- Witness for the amended C1 at `sampleDf`, year 2007, continents
`["Asia"]`: the Asia aggregate row. -/
theorem claim_C1_aggregate_formulas_witness :
    (AggRow.mk "Asia" 1427 (35 / 2) (155 / 2)) ∈
        bar_metrics (year_df sampleDf 2007 ["Asia"]) ∧
      ((AggRow.mk "Asia" 1427 (35 / 2) (155 / 2)).total_population =
          aggSum (fun r => r.population)
            (sampleDf.filter
              (selMatch 2007 ["Asia"]
                (AggRow.mk "Asia" 1427 (35 / 2) (155 / 2)).continent)) ∧
        (AggRow.mk "Asia" 1427 (35 / 2) (155 / 2)).avg_gdp_per_capita =
          aggMean (fun r => r.gdp_cap)
            (sampleDf.filter
              (selMatch 2007 ["Asia"]
                (AggRow.mk "Asia" 1427 (35 / 2) (155 / 2)).continent)) ∧
        (AggRow.mk "Asia" 1427 (35 / 2) (155 / 2)).avg_life_expectancy =
          aggMean (fun r => r.life_exp)
            (sampleDf.filter
              (selMatch 2007 ["Asia"]
                (AggRow.mk "Asia" 1427 (35 / 2) (155 / 2)).continent))) :=
  ⟨by
    simp +decide only [bar_metrics, groupKeys, pySorted, List.insertionSort,
      List.orderedInsert, year_df, filtered_df, sampleDf, aggSum, aggMean,
      List.dedup, List.filter, List.map, List.mem_singleton]
    norm_num,
   claim_C1_aggregate_formulas sampleDf 2007 ["Asia"] _ (by
    simp +decide only [bar_metrics, groupKeys, pySorted, List.insertionSort,
      List.orderedInsert, year_df, filtered_df, sampleDf, aggSum, aggMean,
      List.dedup, List.filter, List.map, List.mem_singleton]
    norm_num)⟩

/-- The aggregate table of a cycle: empty on the early return, else the
grouped aggregation of the year-filtered frame. -/
theorem run_pipeline_aggregates (df : DataFrame) (Y : Int) (C : List String) :
    (run_pipeline df Y C).aggregates =
      if (year_df df Y C).isEmpty then [] else bar_metrics (year_df df Y C) := by
  unfold run_pipeline year_df
  by_cases h : ((filtered_df df C).filter (fun r => r.year == Y)).isEmpty <;>
    simp [h]

/-- The continent column of the aggregate table is exactly the group-key
list. -/
theorem bar_metrics_continents (rows : DataFrame) :
    (bar_metrics rows).map (fun a => a.continent) = groupKeys rows := by
  unfold bar_metrics
  rw [List.map_map]
  exact List.map_id _

/-- Membership in the group keys. -/
theorem mem_groupKeys {rows : DataFrame} {c : String} :
    c ∈ groupKeys rows ↔ ∃ r ∈ rows, r.continent = c := by
  unfold groupKeys
  rw [mem_pySorted, List.mem_dedup, List.mem_map]

/-- A row of the dataset matches the full selection for continent `c` iff it
reaches the year-filtered frame with continent `c`. -/
theorem exists_selMatch_iff (df : DataFrame) (Y : Int) (C : List String)
    (c : String) :
    (∃ r ∈ df, selMatch Y C c r = true) ↔
      ∃ r ∈ year_df df Y C, r.continent = c := by
  constructor
  · rintro ⟨r, hr, hm⟩
    unfold selMatch at hm
    simp only [Bool.and_eq_true, beq_iff_eq] at hm
    refine ⟨r, mem_year_df.mpr ⟨hr, ?_⟩, hm.2⟩
    simp only [Bool.and_eq_true, beq_iff_eq]
    exact ⟨hm.1.1, hm.1.2⟩
  · rintro ⟨r, hr, hc⟩
    obtain ⟨hdf, hb⟩ := mem_year_df.mp hr
    refine ⟨r, hdf, ?_⟩
    unfold selMatch
    simp only [Bool.and_eq_true, beq_iff_eq] at hb ⊢
    exact ⟨hb, hc⟩

/-- Claim C4: the aggregate table has one continent exactly for each
continent with at least one observation matching the active selection, and
when no observation matches the year-and-continent filter at all, the table
is empty. -/
theorem claim_C4_aggregates_only_matching (df : DataFrame) (Y : Int)
    (C : List String) (c : String) :
    (c ∈ ((run_pipeline df Y C).aggregates).map (fun a => a.continent) ↔
        ∃ r ∈ df, selMatch Y C c r = true) ∧
      ((∀ r ∈ df, (r.year == Y && (C.isEmpty || C.contains r.continent)) = false) →
        (run_pipeline df Y C).aggregates = []) := by
  have hagg := run_pipeline_aggregates df Y C
  constructor
  · rw [hagg, exists_selMatch_iff]
    by_cases hyr : (year_df df Y C).isEmpty
    · rw [List.isEmpty_iff] at hyr
      simp [hyr]
    · simp only [hyr, Bool.false_eq_true, if_false]
      rw [bar_metrics_continents, mem_groupKeys]
  · intro hall
    rw [hagg]
    have : year_df df Y C = [] := by
      refine List.eq_nil_iff_forall_not_mem.mpr (fun r hr => ?_)
      obtain ⟨hdf, hb⟩ := mem_year_df.mp hr
      rw [hall r hdf] at hb
      exact Bool.false_ne_true hb
    simp [this]

/-- Witness for C4 at `sampleDf`, year 2007, continents `["Asia"]`,
continent "Asia". -/
theorem claim_C4_aggregates_only_matching_witness :
    ("Asia" ∈ ((run_pipeline sampleDf 2007 ["Asia"]).aggregates).map
          (fun a => a.continent) ↔
        ∃ r ∈ sampleDf, selMatch 2007 ["Asia"] "Asia" r = true) ∧
      ((∀ r ∈ sampleDf,
          (r.year == (2007 : Int) &&
            (List.isEmpty ["Asia"] || List.contains ["Asia"] r.continent)) = false) →
        (run_pipeline sampleDf 2007 ["Asia"]).aggregates = []) :=
  claim_C4_aggregates_only_matching sampleDf 2007 ["Asia"] "Asia"

/-- The sort key comparison, unfolded to its lexicographic components. -/
theorem meltLE_iff (a b : MeltRow) :
    meltLE a b ↔ (a.continent < b.continent ∨
      (a.continent = b.continent ∧
        metric_order.indexOf a.Metric ≤ metric_order.indexOf b.Metric)) := by
  unfold meltLE meltKey
  exact Prod.Lex.le_iff _ _

/-- The group keys are strictly sorted: sorted ascending and without
duplicates. -/
theorem groupKeys_sorted_lt (rows : DataFrame) :
    (groupKeys rows).Sorted (fun a b => a < b) := by
  have hs : (groupKeys rows).Sorted (fun a b => a ≤ b) :=
    List.sorted_insertionSort _ _
  have hnd : (groupKeys rows).Nodup :=
    (List.perm_insertionSort _ _).nodup_iff.mpr (List.nodup_dedup _)
  exact List.Pairwise.imp (fun h => lt_of_le_of_ne h.1 h.2) (hs.and hnd)

/-- Claim C10: whenever the bar chart is rendered, the aggregate rows are in
strictly ascending alphabetical order of continent, and the bar chart's
x-axis category array is exactly that continent list. -/
theorem claim_C10_continent_order (df : DataFrame) (Y : Int) (C : List String)
    (b : BarChart) (hb : (run_pipeline df Y C).barChart = some b) :
    (run_pipeline df Y C).aggregates = bar_metrics (year_df df Y C) ∧
      b.categoryArray = (bar_metrics (year_df df Y C)).map (fun a => a.continent) ∧
      b.categoryArray.Sorted (fun x y => x < y) := by
  unfold run_pipeline at hb
  by_cases h : ((filtered_df df C).filter (fun r => r.year == Y)).isEmpty
  · rw [if_pos h] at hb
    exact absurd hb (by simp)
  · rw [if_neg h] at hb
    dsimp only at hb
    cases Option.some.inj hb
    have h2 : ¬(year_df df Y C).isEmpty = true := h
    refine ⟨?_, rfl, ?_⟩
    · rw [run_pipeline_aggregates, if_neg h2]
    · dsimp only
      rw [bar_metrics_continents]
      exact groupKeys_sorted_lt _

/-- Witness for C10 at `sampleDf`, year 2007, continents `["Asia"]`. -/
theorem claim_C10_continent_order_witness :
    (run_pipeline sampleDf 2007 ["Asia"]).barChart =
        some { data := [ MeltRow.mk "Asia" "avg_gdp_per_capita" (35 / 2),
                         MeltRow.mk "Asia" "total_population" 1427,
                         MeltRow.mk "Asia" "avg_life_expectancy" (155 / 2) ],
               x := "continent", y := "Value", color := "Metric",
               categoryArray := ["Asia"] } ∧
      ((run_pipeline sampleDf 2007 ["Asia"]).aggregates =
          bar_metrics (year_df sampleDf 2007 ["Asia"]) ∧
        (BarChart.mk
            [ MeltRow.mk "Asia" "avg_gdp_per_capita" (35 / 2),
              MeltRow.mk "Asia" "total_population" 1427,
              MeltRow.mk "Asia" "avg_life_expectancy" (155 / 2) ]
            "continent" "Value" "Metric" ["Asia"]).categoryArray =
          (bar_metrics (year_df sampleDf 2007 ["Asia"])).map (fun a => a.continent) ∧
        (BarChart.mk
            [ MeltRow.mk "Asia" "avg_gdp_per_capita" (35 / 2),
              MeltRow.mk "Asia" "total_population" 1427,
              MeltRow.mk "Asia" "avg_life_expectancy" (155 / 2) ]
            "continent" "Value" "Metric" ["Asia"]).categoryArray.Sorted
          (fun x y => x < y)) :=
  ⟨by
    simp [run_pipeline, melted_bar, melt, bar_metrics, groupKeys, pySorted,
      List.insertionSort, List.orderedInsert, meltLE_iff, metric_order,
      year_df, filtered_df, sampleDf, aggSum, aggMean, List.dedup]
    norm_num,
   claim_C10_continent_order sampleDf 2007 ["Asia"] _ (by
    simp [run_pipeline, melted_bar, melt, bar_metrics, groupKeys, pySorted,
      List.insertionSort, List.orderedInsert, meltLE_iff, metric_order,
      year_df, filtered_df, sampleDf, aggSum, aggMean, List.dedup]
    norm_num)⟩

/-- Stacking three column projections of a table (pandas `melt`) is a
permutation of emitting, row by row, the triple of cells in any fixed
column order. -/
theorem three_column_perm {β : Type} (f1 f2 f3 : AggRow → β) :
    ∀ t : List AggRow,
      (((t.map f1) ++ (t.map f2)) ++ (t.map f3)).Perm
        (t.flatMap (fun a => [f2 a, f1 a, f3 a]))
  | [] => List.Perm.refl _
  | a :: t => by
    have ih := three_column_perm f1 f2 f3 t
    have s1 : ((t.map f1) ++ (f2 a :: t.map f2)).Perm
        (f2 a :: ((t.map f1) ++ (t.map f2))) :=
      List.perm_middle
    have s2 : (((t.map f1) ++ (t.map f2)) ++ (f3 a :: t.map f3)).Perm
        (f3 a :: (((t.map f1) ++ (t.map f2)) ++ (t.map f3))) :=
      List.perm_middle
    show (f1 a :: (((t.map f1) ++ (f2 a :: t.map f2)) ++ (f3 a :: t.map f3))).Perm
      (f2 a :: f1 a :: f3 a :: t.flatMap (fun a => [f2 a, f1 a, f3 a]))
    refine ((((s1.append_right (f3 a :: t.map f3)).trans
      (s2.cons (f2 a)))).cons (f1 a)).trans ?_
    refine (List.Perm.swap (f2 a) (f1 a) _).trans ?_
    exact ((ih.cons (f3 a)).cons (f1 a)).cons (f2 a)

/-- The melted table is a permutation of the spec's long form. -/
theorem perm_melt_longFormSpec (t : List AggRow) :
    (melt t).Perm (longFormSpec t) := by
  unfold melt longFormSpec
  exact three_column_perm
    (fun a => MeltRow.mk a.continent "total_population" a.total_population)
    (fun a => MeltRow.mk a.continent "avg_gdp_per_capita" a.avg_gdp_per_capita)
    (fun a => MeltRow.mk a.continent "avg_life_expectancy" a.avg_life_expectancy) t

/-- Every long-form row's continent comes from the aggregate table. -/
theorem mem_longFormSpec_cont {m : MeltRow} {t : List AggRow}
    (hm : m ∈ longFormSpec t) : m.continent ∈ t.map (fun a => a.continent) := by
  obtain ⟨a, ha, hmem⟩ := List.mem_flatMap.mp hm
  have : m.continent = a.continent := by
    rcases (by simpa using hmem : m = _ ∨ m = _ ∨ m = _) with rfl | rfl | rfl <;> rfl
  rw [this]
  exact List.mem_map_of_mem _ ha

/-- When the aggregate table's continents are strictly sorted, the spec's
long form is strictly sorted under the (continent, metric position) key. -/
theorem longFormSpec_keys_sorted :
    ∀ t : List AggRow,
      (t.map (fun a => a.continent)).Sorted (fun a b => a < b) →
      ((longFormSpec t).map meltKey).Sorted (fun a b => a < b)
  | [] => by
    intro _
    simp [longFormSpec]
  | a :: t => by
    intro hs
    rw [List.map_cons, List.sorted_cons] at hs
    obtain ⟨hhead, htail⟩ := hs
    have hrest := longFormSpec_keys_sorted t htail
    unfold longFormSpec
    rw [List.flatMap_cons, List.map_append]
    have htriple : List.map meltKey
        [ MeltRow.mk a.continent "avg_gdp_per_capita" a.avg_gdp_per_capita,
          MeltRow.mk a.continent "total_population" a.total_population,
          MeltRow.mk a.continent "avg_life_expectancy" a.avg_life_expectancy ] =
        [toLex (a.continent, 0), toLex (a.continent, 1), toLex (a.continent, 2)] := rfl
    rw [htriple]
    refine List.pairwise_append.mpr ⟨?_, hrest, ?_⟩
    · simp [List.pairwise_cons, Prod.Lex.lt_iff]
    · intro x hx y hy
      obtain ⟨m, hm, rfl⟩ := List.mem_map.mp hy
      have hlt : a.continent < m.continent :=
        hhead _ (mem_longFormSpec_cont hm)
      have hkey : ∃ i : Nat, x = toLex (a.continent, i) := by
        rcases (by simpa using hx : x = _ ∨ x = _ ∨ x = _) with rfl | rfl | rfl
        · exact ⟨0, rfl⟩
        · exact ⟨1, rfl⟩
        · exact ⟨2, rfl⟩
      obtain ⟨i, rfl⟩ := hkey
      show toLex (a.continent, i) < meltKey m
      unfold meltKey
      exact (Prod.Lex.lt_iff _ _).mpr (Or.inl hlt)

/-- Two lists that are permutations of each other and both strictly sorted
under a key function are equal. -/
theorem keySorted_ext {α K : Type} [LinearOrder K] (f : α → K) :
    ∀ {l₁ l₂ : List α}, l₁.Perm l₂ → ((l₁.map f).Sorted (fun a b => a < b)) →
      ((l₂.map f).Sorted (fun a b => a < b)) → l₁ = l₂ := by
  intro l₁
  induction l₁ with
  | nil =>
    intro l₂ hp _ _
    exact (hp.symm.eq_nil).symm
  | cons a t ih =>
    intro l₂ hp hs₁ hs₂
    cases l₂ with
    | nil => exact absurd hp.eq_nil (by simp)
    | cons b u =>
      have hhead : a = b := by
        by_contra hne
        have hbmem : b ∈ a :: t := hp.symm.subset (List.mem_cons_self b u)
        have hamem : a ∈ b :: u := hp.subset (List.mem_cons_self a t)
        have hb : b ∈ t := by
          rcases List.mem_cons.mp hbmem with h1 | h1
          · exact absurd h1.symm hne
          · exact h1
        have ha : a ∈ u := by
          rcases List.mem_cons.mp hamem with h1 | h1
          · exact absurd h1 hne
          · exact h1
        have hfab : f a < f b :=
          (List.sorted_cons.mp (by simpa using hs₁)).1 (f b) (List.mem_map_of_mem f hb)
        have hfba : f b < f a :=
          (List.sorted_cons.mp (by simpa using hs₂)).1 (f a) (List.mem_map_of_mem f ha)
        exact absurd hfba (lt_asymm hfab)
      subst hhead
      have ht : t.Perm u := hp.cons_inv
      have hs₁t : (t.map f).Sorted (fun a b => a < b) :=
        (List.sorted_cons.mp (by simpa using hs₁)).2
      have hs₂u : (u.map f).Sorted (fun a b => a < b) :=
        (List.sorted_cons.mp (by simpa using hs₂)).2
      rw [ih ht hs₁t hs₂u]

/-- The source's melt-then-sort equals the spec's long form whenever the
aggregate table's continents are strictly sorted. -/
theorem melted_bar_eq_longFormSpec (t : List AggRow)
    (hsort : (t.map (fun a => a.continent)).Sorted (fun a b => a < b)) :
    melted_bar t = longFormSpec t := by
  have hperm : (melted_bar t).Perm (longFormSpec t) :=
    (List.perm_insertionSort _ _).trans (perm_melt_longFormSpec t)
  have hs2 : ((longFormSpec t).map meltKey).Sorted (fun a b => a < b) :=
    longFormSpec_keys_sorted t hsort
  have hnd2 : ((longFormSpec t).map meltKey).Nodup := hs2.nodup
  have hnd1 : ((melted_bar t).map meltKey).Nodup :=
    (hperm.map meltKey).nodup_iff.mpr hnd2
  have hsle : ((melted_bar t).map meltKey).Sorted (fun a b => a ≤ b) :=
    List.pairwise_map.mpr
      ((List.sorted_insertionSort meltLE (melt t)).imp (fun h => h))
  have hslt : ((melted_bar t).map meltKey).Sorted (fun a b => a < b) :=
    List.Pairwise.imp (fun h => lt_of_le_of_ne h.1 h.2) (hsle.and hnd1)
  exact keySorted_ext meltKey hperm hslt hs2

/-- Claim C5: the reshaped long form is exactly one row per (continent,
metric, value) triple — three rows per continent of the aggregate table, in
the fixed metric order `avg_gdp_per_capita`, `total_population`,
`avg_life_expectancy` within each continent. -/
theorem claim_C5_long_form (rows : DataFrame) :
    melted_bar (bar_metrics rows) = longFormSpec (bar_metrics rows) ∧
      (melted_bar (bar_metrics rows)).length = 3 * (bar_metrics rows).length := by
  have hsort : ((bar_metrics rows).map (fun a => a.continent)).Sorted
      (fun a b => a < b) := by
    rw [bar_metrics_continents]
    exact groupKeys_sorted_lt rows
  refine ⟨melted_bar_eq_longFormSpec _ hsort, ?_⟩
  have hlen : (melted_bar (bar_metrics rows)).length =
      (melt (bar_metrics rows)).length :=
    (List.perm_insertionSort _ _).length_eq
  rw [hlen]
  unfold melt
  simp only [List.length_append, List.length_map]
  ring
